import Mathlib

/-!
Verification of the authentication/authorization core of the lastuser
application (`lastuserapp/views/__init__.py`): the bearer-token resource
dispatcher (`provides_resource`), the HTTP Basic client authenticator
(`requires_client_login`), session-to-user resolution
(`lookup_current_user`) and the safe-redirect policy (`get_next_url`).

The Python code is shallowly embedded: the ambient Flask request/session
objects become explicit record arguments, database queries become lookups
in explicit lists, and an unhandled Python exception escaping a function
becomes a distinguished constructor of the result type.
-/

/-- Request parameters (`request.args` / `request.form`): an ordered
key/value map, as Flask's MultiDict behaves for `in` and `.get`. -/
abbrev Args := List (String × String)

/-- Uploaded files (`request.files`); only passed through to handlers,
never inspected by the dispatcher. -/
abbrev Files := List (String × String)

/-- `args.get(k)`: first value under the key, if any. -/
def argsGet (args : Args) (k : String) : Option String :=
  (List.find? (fun p => p.1 == k) args).map (fun p => p.2)

/-- `k in args`: key membership. -/
def argsHasKey (args : Args) (k : String) : Bool :=
  List.any args (fun p => p.1 == k)

/-- Python truthiness of an optional string: `None` and `""` are falsy. -/
def truthyS : Option String → Bool
  | none => false
  | some s => s ≠ ""

/-- Modelled from the spec: `AuthToken` lives in `lastuserapp/models.py`,
which is not part of the studied source. The spec describes it as a unique
token string with a set of scope names (membership test only), so the
scope is a list of names. -/
structure AuthToken where
  token : String
  scope : List String
  deriving DecidableEq, Repr

/-- Modelled from the spec: `Client` lives in `lastuserapp/models.py`.
The spec gives it a unique key, an active flag and a verifiable secret;
`secret_is` is the secret-verification method. -/
structure Client where
  key : String
  active : Bool
  secret_is : String → Bool

/-- Modelled from the spec: `User` lives in `lastuserapp/models.py`; a
unique user id and an optional email record. -/
structure User where
  userid : String
  email : Option String
  deriving DecidableEq, Repr

/-- The Flask session fields this core reads and writes: current user id,
the one-time `next` redirect target, the cached avatar URL (the outer
`Option` is key presence, the inner is the stored value, which may itself
be `None`), and the external-identity dict. -/
structure Session where
  userid : Option String
  next : Option String
  avatar_url : Option (Option String)
  userid_external : List (String × String)
  deriving DecidableEq, Repr

/-- `session.get('userid_external', \x7b\x7d).get(k)`. -/
def dictGet (d : List (String × String)) (k : String) : Option String :=
  (List.find? (fun p => p.1 == k) d).map (fun p => p.2)

/-- Python `s.startswith(p)`, computed on the character lists so that it
evaluates inside the kernel. -/
def strStartsWith (s p : String) : Bool :=
  List.isPrefixOf p.data s.data

/-- A character of the bearer-token charset: letters, digits and the
characters `_ . ~ + / -`. -/
def isBearerChar (c : Char) : Bool :=
  c.isAlpha || c.isDigit || c == '_' || c == '.' || c == '~' || c == '+' || c == '/' || c == '-'

/-- `auth_bearer_re.search(s)` for the anchored source pattern (caret,
`Bearer `, one or more charset characters, `=` padding, dollar),
returning `group(1)`: the string (less
one trailing newline, which `$` absorbs) must be `Bearer ` followed by one
or more charset characters and then only `=` padding. -/
def auth_bearer_match (s : String) : Option String :=
  let cs := if s.data.getLast? == some '\n' then s.data.dropLast else s.data
  match cs with
  | 'B' :: 'e' :: 'a' :: 'r' :: 'e' :: 'r' :: ' ' :: tok =>
    let core := tok.takeWhile isBearerChar
    let pad := tok.drop core.length
    if core.length > 0 && pad.all (fun c => c == '=') then some (String.mk tok) else none
  | _ => none

/-- Response body: plain text for the 401 responses, or one of the two
JSON envelopes produced by `jsonify` (`α` is the handler's result type). -/
inductive RespBody (α : Type) where
  | text (s : String)
  | okEnvelope (result : α)
  | errorEnvelope (error : String) (error_description : String)
  deriving DecidableEq, Repr

/-- An HTTP response: status code, body and the headers this core sets
explicitly (framework-added headers such as Content-Type are outside the
model). -/
structure HttpResponse (α : Type) where
  status : Nat
  body : RespBody α
  headers : List (String × String)
  deriving DecidableEq, Repr

/-- `response.headers[k] = v`: replace an existing value or append. -/
def setHeader (hs : List (String × String)) (k v : String) : List (String × String) :=
  if List.any hs (fun p => p.1 == k) then
    List.map (fun p => if p.1 == k then (p.1, v) else p) hs
  else hs ++ [(k, v)]

/-- `(k, v)` is among the headers. -/
def hasHeader (hs : List (String × String)) (k v : String) : Bool :=
  List.any hs (fun p => p.1 == k && p.2 == v)

/-- A Python exception value as the handler may raise it: class name and
message (`exception.__class__.__name__`, `unicode(exception)`). -/
structure PyExc where
  className : String
  message : String
  deriving DecidableEq, Repr

/-- A resource handler: receives the resolved token, the request
arguments and the uploaded files; returns a value or raises. -/
def Handler (α : Type) : Type := AuthToken → Args → Files → Except PyExc α

/-- The inbound request as the dispatcher sees it: HTTP method, the
`Authorization` header value if present, query parameters, form
parameters and uploaded files. -/
structure ResourceRequest where
  method : String
  authorization : Option String
  queryArgs : Args
  formArgs : Args
  files : Files

/-- Outcome of the dispatcher: a response, or a Python `UnboundLocalError`
escaping because `args` was read before assignment. -/
inductive Dispatch (α : Type) where
  | response (r : HttpResponse α)
  | unboundLocalError
  deriving DecidableEq, Repr

/-- `resource_auth_error(message)`: a 401 whose `WWW-Authenticate` Bearer
challenge names the resource as the required scope. -/
def resource_auth_error (name message : String) : HttpResponse α :=
  { status := 401
    body := .text message
    headers := [("WWW-Authenticate", "Bearer realm=\"Token Required\" scope=\"" ++ name ++ "\"")] }

/-- The method-appropriate parameter set: `request.args` for GET,
`request.form` for POST/PUT/DELETE; for any other method the local
variable `args` is never assigned. -/
def method_args (req : ResourceRequest) : Option Args :=
  if req.method == "GET" then some req.queryArgs
  else if req.method == "POST" || req.method == "PUT" || req.method == "DELETE" then
    some req.formArgs
  else none

/-- Token extraction, lines 73-90 of the source: the header branch
(malformed header is a 401; a well-formed header together with an
`access_token` parameter is a 401) and the parameter branch (a missing or
falsy token is a 401). Reading `args` when `method_args` assigned nothing
raises `UnboundLocalError`. -/
inductive TokenExtract where
  | fail (message : String)
  | unbound
  | ok (token : String) (args : Args)
  deriving DecidableEq, Repr

def extract_token (req : ResourceRequest) : TokenExtract :=
  match req.authorization with
  | some h =>
    match auth_bearer_match h with
    | none => .fail "A Bearer token is required in the Authorization header."
    | some tok =>
      match method_args req with
      | none => .unbound
      | some args =>
        if argsHasKey args "access_token" then
          .fail "Access token specified in both header and body."
        else .ok tok args
  | none =>
    match method_args req with
    | none => .unbound
    | some args =>
      if truthyS (argsGet args "access_token") then
        .ok ((argsGet args "access_token").getD "") args
      else .fail "An access token is required to access this resource."

/-- `provides_resource(name)`'s `decorated_function`: extract the token,
resolve it in the token store, enforce the scope, then invoke the handler
and wrap its result (or its exception) in a JSON envelope carrying the
no-cache headers. -/
def decorated_function {α : Type} (name : String) (f : Handler α)
    (store : List AuthToken) (req : ResourceRequest) : Dispatch α :=
  match extract_token req with
  | .unbound => .unboundLocalError
  | .fail m => .response (resource_auth_error name m)
  | .ok token args =>
    match List.find? (fun a => a.token == token) store with
    | none => .response (resource_auth_error name "Unknown access token.")
    | some authtoken =>
      if name ∈ authtoken.scope then
        let response : HttpResponse α :=
          match f authtoken args req.files with
          | .ok result => { status := 200, body := .okEnvelope result, headers := [] }
          | .error e => { status := 200, body := .errorEnvelope e.className e.message, headers := [] }
        .response { response with
          headers := setHeader (setHeader response.headers "Cache-Control" "no-store") "Pragma" "no-cache" }
      else
        .response (resource_auth_error name "Token does not provide access to this resource.")

/-- HTTP Basic credentials as `request.authorization` exposes them. -/
structure BasicAuth where
  username : String
  password : String
  deriving DecidableEq, Repr

/-- Outcome of `requires_client_login`'s `decorated_function`: a 401
response, or the resolved client attached to `g.client` with control
passed to the wrapped view. -/
inductive ClientAuthResult where
  | response (r : HttpResponse Unit)
  | proceed (client : Client)

/-- `requires_client_login`'s `decorated_function`: missing credentials,
an unknown key, an inactive client, or a failed secret check all yield a
401 with the Basic challenge. -/
def requires_client_login (clients : List Client) (auth : Option BasicAuth) : ClientAuthResult :=
  match auth with
  | none =>
    .response
      { status := 401
        body := .text "Client credentials required."
        headers := [("WWW-Authenticate", "Basic realm=\"Client credentials\"")] }
  | some a =>
    match List.find? (fun c => c.key == a.username) clients with
    | none =>
      .response
        { status := 401
          body := .text "Invalid client credentials."
          headers := [("WWW-Authenticate", "Basic realm=\"Client credentials\"")] }
    | some client =>
      if client.active && client.secret_is a.password then .proceed client
      else
        .response
          { status := 401
            body := .text "Invalid client credentials."
            headers := [("WWW-Authenticate", "Basic realm=\"Client credentials\"")] }

/-- The three reject causes of `requires_client_login` once credentials
are present: no client under the key, inactive client, secret mismatch. -/
def clientAuthFails (clients : List Client) (a : BasicAuth) : Bool :=
  match List.find? (fun c => c.key == a.username) clients with
  | none => true
  | some c => !c.active || !c.secret_is a.password

/-- Outcome of `lookup_current_user`: the resolved `g.user` and
`g.avatar_url` with the updated session, or an `AttributeError` escaping
(reading `.email` off `None`). -/
inductive LookupOutcome where
  | ok (user : Option User) (avatar : Option String) (sess : Session)
  | attributeError
  deriving DecidableEq, Repr

/-- `lookup_current_user`, the before-request hook. The three avatar
sources (gravatar by email hash, the Twitter API, the GitHub API) are
external collaborators, passed in as the values they would produce. -/
def lookup_current_user (store : List User) (sess : Session)
    (av_email av_twitter av_github : Option String) : LookupOutcome :=
  match sess.userid with
  | none => .ok none none { sess with avatar_url := none }
  | some uid =>
    let guser := List.find? (fun u => u.userid == uid) store
    match sess.avatar_url with
    | some cached => .ok guser cached sess
    | none =>
      match guser with
      | none => .attributeError
      | some u =>
        let av :=
          if u.email.isSome then av_email
          else if dictGet sess.userid_external "service" == some "twitter" then av_twitter
          else if dictGet sess.userid_external "service" == some "github" then av_github
          else none
        .ok guser av { sess with avatar_url := some av }

/-- The request facts `get_next_url` consults: the current URL, the
`next` query parameter and the `Referer` header. -/
structure RedirectRequest where
  url : String
  argsNext : Option String
  referrer : Option String
  deriving DecidableEq, Repr

/-- `get_next_url(referrer, external)`. `hostname` stands for the library
call `urlparse.urlsplit(u).hostname`. The session `next` is popped first
and, when truthy, returned with no further checks; the query-parameter
candidate is emptied when it is an absolute or protocol-relative URL on a
foreign host (unless `external`); the remainder falls back to the
referrer (when asked) and then the index URL. Returns the result together
with the updated session. -/
def get_next_url (hostname : String → Option String) (req : RedirectRequest)
    (sess : Session) (index_url : String) (referrer external : Bool) :
    String × Session :=
  let sess1 := { sess with next := none }
  if truthyS sess.next then
    ((sess.next).getD "", sess1)
  else
    let next_url := req.argsNext.getD ""
    let next_url :=
      if !external &&
          (strStartsWith next_url "http:" || strStartsWith next_url "https:" ||
            strStartsWith next_url "//") &&
          hostname next_url != hostname req.url
      then "" else next_url
    if referrer then
      (if next_url ≠ "" then next_url
       else if truthyS req.referrer then req.referrer.getD "" else index_url, sess1)
    else
      (if next_url ≠ "" then next_url else index_url, sess1)

/-- A concrete handler that returns a value, for instantiating theorems. -/
def demo_handler_ok : Handler Nat := fun _ _ _ => .ok 7

/-- A concrete handler that raises, for instantiating theorems. -/
def demo_handler_raise : Handler Nat := fun _ _ _ => .error ⟨"ValueError", "boom"⟩

/-- Claim C1: a request that presents a token found in the token store
whose scope set does not contain the resource name is answered with a 401
carrying the Bearer challenge that names the resource, for every handler
`f` — so the registered handler is never invoked. -/
theorem scope_failure_rejected {α : Type} (name : String) (f : Handler α)
    (store : List AuthToken) (req : ResourceRequest)
    (t : String) (args : Args) (tok : AuthToken)
    (hx : extract_token req = .ok t args)
    (ht : List.find? (fun a => a.token == t) store = some tok)
    (hs : name ∉ tok.scope) :
    decorated_function name f store req =
      .response (resource_auth_error name "Token does not provide access to this resource.") := by
  unfold decorated_function
  rw [hx]
  simp [ht, hs]

/-- Claim C1 witness: token `abc123` has scope `profile` only, the
resource is `contacts`. -/
theorem scope_failure_rejected_witness :
    decorated_function "contacts" demo_handler_ok [⟨"abc123", ["profile"]⟩]
        ⟨"GET", none, [("access_token", "abc123")], [], []⟩ =
      .response (resource_auth_error "contacts" "Token does not provide access to this resource.") :=
  scope_failure_rejected "contacts" demo_handler_ok [⟨"abc123", ["profile"]⟩]
    ⟨"GET", none, [("access_token", "abc123")], [], []⟩
    "abc123" [("access_token", "abc123")] ⟨"abc123", ["profile"]⟩ rfl rfl (by decide)

/-- Claim C2: a request whose extracted token resolves to no stored
`AuthToken` is answered with the 401 `Unknown access token.` response and
its Bearer challenge, for every handler `f`. -/
theorem unknown_token_rejected {α : Type} (name : String) (f : Handler α)
    (store : List AuthToken) (req : ResourceRequest) (t : String) (args : Args)
    (hx : extract_token req = .ok t args)
    (ht : List.find? (fun a => a.token == t) store = none) :
    decorated_function name f store req =
      .response (resource_auth_error name "Unknown access token.") := by
  unfold decorated_function
  rw [hx]
  simp [ht]

/-- Claim C2 witness: well-formed bearer header, empty token store. -/
theorem unknown_token_rejected_witness :
    decorated_function "res" demo_handler_ok []
        ⟨"GET", some "Bearer abc123", [], [], []⟩ =
      .response (resource_auth_error "res" "Unknown access token.") :=
  unknown_token_rejected "res" demo_handler_ok []
    ⟨"GET", some "Bearer abc123", [], [], []⟩ "abc123" [] rfl rfl

/-- Claim C3: a well-formed Bearer header together with an `access_token`
key in the method-appropriate parameters is rejected with the 401
`specified in both` response, whatever the token store holds — so even two
identical, individually valid values are rejected — and for every handler. -/
theorem dual_token_rejected {α : Type} (name : String) (f : Handler α)
    (store : List AuthToken) (req : ResourceRequest) (h t : String) (args : Args)
    (hh : req.authorization = some h)
    (hm : auth_bearer_match h = some t)
    (ha : method_args req = some args)
    (hk : argsHasKey args "access_token" = true) :
    decorated_function name f store req =
      .response (resource_auth_error name "Access token specified in both header and body.") := by
  unfold decorated_function extract_token
  rw [hh]
  simp [hm, ha, hk]

/-- Claim C3 witness: POST with header `Bearer abc123` and form field
`access_token=abc123`; the store holds `abc123` with the right scope, so
each presentation alone would be valid. -/
theorem dual_token_rejected_witness :
    decorated_function "res" demo_handler_ok [⟨"abc123", ["res"]⟩]
        ⟨"POST", some "Bearer abc123", [], [("access_token", "abc123")], []⟩ =
      .response (resource_auth_error "res" "Access token specified in both header and body.") :=
  dual_token_rejected "res" demo_handler_ok [⟨"abc123", ["res"]⟩]
    ⟨"POST", some "Bearer abc123", [], [("access_token", "abc123")], []⟩
    "Bearer abc123" "abc123" [("access_token", "abc123")] rfl rfl rfl rfl

/-- A concrete stand-in for `urlparse.urlsplit(u).hostname`, for
instantiating redirect theorems: recognises the two demo hosts. -/
def demo_hostname (s : String) : Option String :=
  if s = "http://evil.com/x" then some "evil.com"
  else if s = "http://example.com/login" then some "example.com"
  else none

/-- Claim C4 counterexample: with no external opt-in, current host
`example.com`, a `next` value `http://evil.com/x` previously stored in
session is returned verbatim, although it is an absolute URL whose host
differs from the request's host. -/
theorem session_next_bypasses_host_filter :
    (get_next_url demo_hostname ⟨"http://example.com/login", none, none⟩
        ⟨none, some "http://evil.com/x", none, []⟩ "/" false false).1 = "http://evil.com/x"
    ∧ strStartsWith "http://evil.com/x" "http:" = true
    ∧ demo_hostname "http://evil.com/x" ≠ demo_hostname "http://example.com/login" :=
  ⟨rfl, by decide, by decide⟩

/-- Claim C4 as amended: the host-safety filter covers the
request-parameter candidate only. When the session holds no pending
`next` value and the `next` request parameter is an absolute (`http:`,
`https:`) or protocol-relative (`//`) URL on a host other than the
request's, the candidate is discarded and the call returns the referrer
(when requested and present) or the default landing URL. -/
theorem request_param_foreign_host_discarded (hostname : String → Option String)
    (req : RedirectRequest) (sess : Session) (index_url : String) (referrer : Bool)
    (hsess : truthyS sess.next = false)
    (habs : strStartsWith (req.argsNext.getD "") "http:" = true ∨
            strStartsWith (req.argsNext.getD "") "https:" = true ∨
            strStartsWith (req.argsNext.getD "") "//" = true)
    (hhost : hostname (req.argsNext.getD "") ≠ hostname req.url) :
    (get_next_url hostname req sess index_url referrer false).1 =
      if referrer && truthyS req.referrer then req.referrer.getD "" else index_url := by
  unfold get_next_url
  rw [hsess]
  simp only [Bool.false_eq_true, if_false, Bool.not_false, Bool.true_and, bne_iff_ne]
  rcases habs with h | h | h <;>
    cases referrer <;>
      simp [h, bne_iff_ne, hhost, truthyS]

/-- Claim C4 witness for the amended statement: the foreign-host query
candidate is dropped and the referrer is returned instead. -/
theorem request_param_foreign_host_discarded_witness :
    (get_next_url demo_hostname
        ⟨"http://example.com/login", some "http://evil.com/x", some "http://example.com/prev"⟩
        ⟨none, none, none, []⟩ "/" true false).1 = "http://example.com/prev" :=
  request_param_foreign_host_discarded demo_hostname
    ⟨"http://example.com/login", some "http://evil.com/x", some "http://example.com/prev"⟩
    ⟨none, none, none, []⟩ "/" true rfl (Or.inl (by decide)) (by decide)

/-- Claim C5: the code raises where the spec promises an unauthenticated
pass-through. With a session user id that resolves to no stored user and
no cached avatar URL, `lookup_current_user` dereferences `.email` on
`None` and an `AttributeError` escapes the before-request step. -/
theorem stale_session_raises_attribute_error :
    lookup_current_user [] ⟨some "stale", none, none, []⟩ none none none =
      LookupOutcome.attributeError := rfl

/-- Claim C6: any two failing authentication attempts with credentials
present — unknown client key, inactive client, or secret mismatch — get
identical responses: the same 401 body and the same Basic challenge. -/
theorem client_auth_failures_identical (cs₁ cs₂ : List Client) (a₁ a₂ : BasicAuth)
    (h₁ : clientAuthFails cs₁ a₁ = true) (h₂ : clientAuthFails cs₂ a₂ = true) :
    requires_client_login cs₁ (some a₁) = requires_client_login cs₂ (some a₂)
    ∧ requires_client_login cs₁ (some a₁) =
      .response
        { status := 401
          body := .text "Invalid client credentials."
          headers := [("WWW-Authenticate", "Basic realm=\"Client credentials\"")] } := by
  have key : ∀ (cs : List Client) (a : BasicAuth), clientAuthFails cs a = true →
      requires_client_login cs (some a) =
        .response
          { status := 401
            body := .text "Invalid client credentials."
            headers := [("WWW-Authenticate", "Basic realm=\"Client credentials\"")] } := by
    intro cs a h
    simp only [requires_client_login]
    unfold clientAuthFails at h
    cases hf : List.find? (fun c => c.key == a.username) cs with
    | none => rfl
    | some c =>
      rw [hf] at h
      simp only [Bool.or_eq_true, Bool.not_eq_true'] at h
      rcases h with h | h <;> simp [h]
  exact ⟨(key cs₁ a₁ h₁).trans (key cs₂ a₂ h₂).symm, key cs₁ a₁ h₁⟩

/-- A registered, active demo client with key `acme`, for instantiating
theorems. -/
def acme_client : Client := ⟨"acme", true, fun s => s == "correct"⟩

/-- Claim C6 witness: a secret mismatch against the stored `acme` client
and an unknown key get the very same 401 response. -/
theorem client_auth_failures_identical_witness :
    requires_client_login [acme_client] (some ⟨"acme", "wrong"⟩) =
      requires_client_login [] (some ⟨"nobody", "pw"⟩)
    ∧ requires_client_login [acme_client] (some ⟨"acme", "wrong"⟩) =
      .response
        { status := 401
          body := .text "Invalid client credentials."
          headers := [("WWW-Authenticate", "Basic realm=\"Client credentials\"")] } :=
  client_auth_failures_identical [acme_client] [] ⟨"acme", "wrong"⟩ ⟨"nobody", "pw"⟩
    (by decide) rfl

/-- Claim C7: once a call is authorized, the dispatcher always answers
HTTP 200 with a JSON envelope: the handler's value wrapped as an `ok`
envelope, or the exception it raised wrapped as an `error` envelope with
the exception class name and message — no handler error escapes. -/
theorem handler_result_enveloped {α : Type} (name : String) (f : Handler α)
    (store : List AuthToken) (req : ResourceRequest)
    (t : String) (args : Args) (tok : AuthToken)
    (hx : extract_token req = .ok t args)
    (ht : List.find? (fun a => a.token == t) store = some tok)
    (hs : name ∈ tok.scope) :
    decorated_function name f store req = .response
      { status := 200
        body :=
          match f tok args req.files with
          | .ok v => .okEnvelope v
          | .error e => .errorEnvelope e.className e.message
        headers := [("Cache-Control", "no-store"), ("Pragma", "no-cache")] } := by
  unfold decorated_function
  rw [hx]
  cases hres : f tok args req.files <;> simp [ht, hs, hres, setHeader]

/-- Claim C7 witness: a handler raising `ValueError("boom")` yields the
200 error envelope. -/
theorem handler_result_enveloped_witness :
    decorated_function "res" demo_handler_raise [⟨"t1", ["res"]⟩]
        ⟨"GET", none, [("access_token", "t1")], [], []⟩ = .response
      { status := 200
        body := .errorEnvelope "ValueError" "boom"
        headers := [("Cache-Control", "no-store"), ("Pragma", "no-cache")] } :=
  handler_result_enveloped "res" demo_handler_raise [⟨"t1", ["res"]⟩]
    ⟨"GET", none, [("access_token", "t1")], [], []⟩
    "t1" [("access_token", "t1")] ⟨"t1", ["res"]⟩ rfl rfl (by decide)

/-- Claim C8: every call to `get_next_url` leaves the session with no
`next` value, whatever the inputs and whatever the call returns — the
stored value is consumed exactly once. -/
theorem next_url_session_consumed (hostname : String → Option String)
    (req : RedirectRequest) (sess : Session) (index_url : String)
    (referrer external : Bool) :
    ((get_next_url hostname req sess index_url referrer external).2).next = none := by
  unfold get_next_url
  cases hs : truthyS sess.next
  · simp only [hs, Bool.false_eq_true, if_false]
    split_ifs <;> rfl
  · simp [hs]

/-- Claim C9 counterexample: the 401 answered to a token-less request
carries only the Bearer challenge: neither `Cache-Control: no-store` nor
`Pragma: no-cache` is present. -/
theorem auth_error_lacks_cache_headers :
    decorated_function "res" demo_handler_ok [] ⟨"GET", none, [], [], []⟩ =
      .response (resource_auth_error "res" "An access token is required to access this resource.")
    ∧ hasHeader (@resource_auth_error Nat "res" "An access token is required to access this resource.").headers
        "Cache-Control" "no-store" = false
    ∧ hasHeader (@resource_auth_error Nat "res" "An access token is required to access this resource.").headers
        "Pragma" "no-cache" = false :=
  ⟨rfl, rfl, rfl⟩

/-- Claim C9 as amended: the envelope responses (status 200) always carry
`Cache-Control: no-store` and `Pragma: no-cache`, while the 401
authentication/authorization responses carry exactly the Bearer challenge
and no cache-control headers. -/
theorem dispatcher_header_discipline {α : Type} (name : String) (f : Handler α)
    (store : List AuthToken) (req : ResourceRequest) (r : HttpResponse α)
    (hr : decorated_function name f store req = .response r) :
    (r.status = 200 →
      hasHeader r.headers "Cache-Control" "no-store" = true ∧
      hasHeader r.headers "Pragma" "no-cache" = true) ∧
    (r.status = 401 →
      r.headers = [("WWW-Authenticate", "Bearer realm=\"Token Required\" scope=\"" ++ name ++ "\"")]) := by
  have herr : ∀ m : String, @resource_auth_error α name m = r →
      (r.status = 200 →
        hasHeader r.headers "Cache-Control" "no-store" = true ∧
        hasHeader r.headers "Pragma" "no-cache" = true) ∧
      (r.status = 401 →
        r.headers = [("WWW-Authenticate", "Bearer realm=\"Token Required\" scope=\"" ++ name ++ "\"")]) := by
    intro m hm
    subst hm
    exact ⟨fun h2 => by simp [resource_auth_error] at h2, fun _ => rfl⟩
  unfold decorated_function at hr
  cases hx : extract_token req with
  | unbound =>
    rw [hx] at hr
    exact absurd hr (by simp)
  | fail m =>
    simp only [hx, Dispatch.response.injEq] at hr
    exact herr m hr
  | ok t args =>
    cases hfind : List.find? (fun a => a.token == t) store with
    | none =>
      simp only [hx, hfind, Dispatch.response.injEq] at hr
      exact herr _ hr
    | some tok =>
      by_cases hscope : name ∈ tok.scope
      · cases hres : f tok args req.files with
        | ok v =>
          simp only [hx, hfind, hscope, if_true, hres, Dispatch.response.injEq, setHeader] at hr
          subst hr
          refine ⟨fun _ => ⟨by rfl, by rfl⟩, fun h4 => absurd h4 (by simp)⟩
        | error e =>
          simp only [hx, hfind, hscope, if_true, hres, Dispatch.response.injEq, setHeader] at hr
          subst hr
          refine ⟨fun _ => ⟨by rfl, by rfl⟩, fun h4 => absurd h4 (by simp)⟩
      · rw [hx] at hr
        simp only [hfind, if_neg hscope, Dispatch.response.injEq] at hr
        exact herr _ hr

/-- Claim C9 witness for the amended statement: an authorized call's
envelope response, at status 200, carries the two no-cache headers. -/
theorem dispatcher_header_discipline_witness :
    ((200 = 200 →
      hasHeader [("Cache-Control", "no-store"), ("Pragma", "no-cache")] "Cache-Control" "no-store" = true ∧
      hasHeader [("Cache-Control", "no-store"), ("Pragma", "no-cache")] "Pragma" "no-cache" = true) ∧
    (200 = 401 →
      [("Cache-Control", "no-store"), ("Pragma", "no-cache")] =
        [("WWW-Authenticate", "Bearer realm=\"Token Required\" scope=\"" ++ "res" ++ "\"")])) :=
  dispatcher_header_discipline "res" demo_handler_ok [⟨"t1", ["res"]⟩]
    ⟨"GET", none, [("access_token", "t1")], [], []⟩
    { status := 200
      body := .okEnvelope 7
      headers := [("Cache-Control", "no-store"), ("Pragma", "no-cache")] } rfl

/-- Claim C10 counterexample: `HEAD` is not one of the four handled
methods, yet with a malformed `Authorization` header the dispatcher does
return a 401 — the failure happens only on the paths that read the
unassigned `args` variable. -/
theorem unusual_method_malformed_header_401 :
    ("HEAD" : String) ∉ (["GET", "POST", "PUT", "DELETE"] : List String)
    ∧ decorated_function "res" demo_handler_ok [] ⟨"HEAD", some "garbage", [], [], []⟩ =
      .response (resource_auth_error "res" "A Bearer token is required in the Authorization header.") :=
  ⟨by decide, rfl⟩

/-- Claim C10 as amended: for a method outside GET/POST/PUT/DELETE the
dispatcher raises `UnboundLocalError` on every path that consults the
request arguments — no `Authorization` header, or a well-formed Bearer
header — before any token is resolved; only a malformed `Authorization`
header still yields the 401 challenge, which is produced before `args`
is read. -/
theorem unusual_method_unbound_args {α : Type} (name : String) (f : Handler α)
    (store : List AuthToken) (req : ResourceRequest)
    (hm : req.method ∉ (["GET", "POST", "PUT", "DELETE"] : List String)) :
    decorated_function name f store req =
      match req.authorization with
      | none => Dispatch.unboundLocalError
      | some h =>
        match auth_bearer_match h with
        | none =>
          Dispatch.response (resource_auth_error name "A Bearer token is required in the Authorization header.")
        | some _ => Dispatch.unboundLocalError := by
  have hma : method_args req = none := by
    simp only [List.mem_cons, List.not_mem_nil, or_false, not_or] at hm
    obtain ⟨h1, h2, h3, h4⟩ := hm
    unfold method_args
    simp [h1, h2, h3, h4]
  unfold decorated_function extract_token
  cases req.authorization with
  | none => simp [hma]
  | some h =>
    cases hb : auth_bearer_match h with
    | none => simp [hb]
    | some t => simp [hb, hma]

/-- Claim C10 witness for the amended statement: a PATCH request without
an `Authorization` header makes the dispatcher fail with
`UnboundLocalError` instead of producing a response. -/
theorem unusual_method_unbound_args_witness :
    ("PATCH" : String) ∉ (["GET", "POST", "PUT", "DELETE"] : List String)
    ∧ decorated_function "res" demo_handler_ok [] ⟨"PATCH", none, [], [], []⟩ =
      Dispatch.unboundLocalError :=
  ⟨by decide,
    unusual_method_unbound_args "res" demo_handler_ok [] ⟨"PATCH", none, [], [], []⟩ (by decide)⟩
